import Mathlib

/-!
Verification development for the mcp-gcal-server repository: a Google
Calendar integration exposing list/create/update/delete calendar operations
through an HTTP API, a chat intent dispatcher, and a tool-invocation (MCP)
server.  The adapter and endpoint code is embedded shallowly from the
TypeScript source (server in src/unnamed/part_001, MCP tool registration in
src/src/index.ts).  External effects are made explicit:

* the process-wide credential slot (the TypeScript variable named tokens)
  is an Option passed to every adapter call;
* the remote Google Calendar service is a state record threaded through
  every operation, with a call counter so that "makes no calendar call"
  is expressible; its list/insert/patch/delete semantics are modelled from
  the spec (the service itself is outside the repository);
* calls to the external language model are inputs of the chat handler
  (result of the classification call and of the fallback call);
* instants are modelled as naturals; JS Date parsing of date-time strings
  is modelled by reading the digit string, which is strictly monotone on
  fixed-format ISO strings.
-/

namespace GCalServer

/-- A credential held in the process-wide slot after a successful OAuth
exchange.  Its contents are never inspected by the adapter, only its
presence. -/
structure Credential where
  accessToken : String
  deriving Repr, DecidableEq

/-- An event stored by the external calendar service.  A recurring event
carries the start instants of all of its occurrences; a non-recurring event
carries a singleton list. -/
structure GEvent where
  id : String
  summary : Option String
  starts : List Nat
  endTime : Option Nat
  deriving Repr, DecidableEq

/-- Modelled from the spec: the state of the external Google Calendar
service.  The online flag injects external-service failures; calls counts
the calendar API calls received, so that a theorem can state that an
operation made no calendar call. -/
structure GCal where
  online : Bool
  events : List GEvent
  nextId : Nat
  calls : Nat
  deriving Repr, DecidableEq

/-- A single occurrence produced by the singleEvents expansion of the
calendar list call. -/
structure Occurrence where
  id : String
  summary : Option String
  start : Nat
  deriving Repr, DecidableEq

/-- Comparison by start instant, the order requested by orderBy startTime. -/
def occLE (a b : Occurrence) : Prop := a.start ≤ b.start

instance : DecidableRel occLE := fun a b => Nat.decLe a.start b.start

instance : IsTotal Occurrence occLE := ⟨fun a b => Nat.le_total a.start b.start⟩

instance : IsTrans Occurrence occLE := ⟨fun _ _ _ h h' => Nat.le_trans h h'⟩

/-- Modelled from the spec: singleEvents expansion, one item per occurrence
of each (possibly recurring) stored event. -/
def expandSingle (evs : List GEvent) : List Occurrence :=
  evs.flatMap fun ev => ev.starts.map fun t => ⟨ev.id, ev.summary, t⟩

/-- Modelled from the spec: the external calendar events.list call with
timeMin, maxResults, singleEvents and orderBy startTime, as issued by the
adapter: expand recurring events to single occurrences, keep occurrences
starting at or after timeMin, order ascending by start, cap at maxResults. -/
def gcalEventsList (timeMin maxResults : Nat) (st : GCal) :
    Except String (List Occurrence) × GCal :=
  let st' := { st with calls := st.calls + 1 }
  if st.online then
    (Except.ok ((((expandSingle st.events).filter
        (fun o => timeMin ≤ o.start)).insertionSort occLE).take maxResults), st')
  else
    (Except.error "service unavailable", st')

/-- Modelled from the spec: the htmlLink of a created event. -/
def gcalLink (id : String) : String :=
  "https://calendar.google.com/event?eid=" ++ id

/-- Modelled from the spec: the external calendar events.insert call.  The
service assigns a fresh identifier from its counter and appends the event. -/
def gcalInsert (summary : Option String) (startT endT : Nat) (st : GCal) :
    Except String GEvent × GCal :=
  let st' := { st with calls := st.calls + 1 }
  if st.online then
    let ev : GEvent := ⟨toString st.nextId, summary, [startT], some endT⟩
    (Except.ok ev, { st' with events := st'.events ++ [ev], nextId := st'.nextId + 1 })
  else
    (Except.error "service unavailable", st')

/-- Patch semantics of one optional field: a supplied value replaces the
stored one, an omitted field leaves it unchanged. -/
def patchOpt {α : Type} (new old : Option α) : Option α :=
  match new with
  | some a => some a
  | none => old

/-- Apply a patch body to a stored event. -/
def applyPatch (summary : Option String) (startT endT : Option Nat)
    (ev : GEvent) : GEvent :=
  { ev with
    summary := patchOpt summary ev.summary
    starts := match startT with
      | some t => [t]
      | none => ev.starts
    endTime := patchOpt endT ev.endTime }

/-- Modelled from the spec: the external calendar events.patch call.
Fields absent from the request body are left unchanged; an unknown event
identifier is rejected by the service. -/
def gcalPatch (eventId : String) (summary : Option String)
    (startT endT : Option Nat) (st : GCal) : Except String GEvent × GCal :=
  let st' := { st with calls := st.calls + 1 }
  if st.online then
    match st.events.find? (fun ev => ev.id = eventId) with
    | some ev =>
      let ev' := applyPatch summary startT endT ev
      (Except.ok ev',
       { st' with events := st'.events.map fun e => if e.id = eventId then ev' else e })
    | none => (Except.error "Not Found", st')
  else
    (Except.error "service unavailable", st')

/-- Modelled from the spec: the external calendar events.delete call.  An
unknown event identifier is rejected by the service. -/
def gcalDelete (eventId : String) (st : GCal) : Except String Unit × GCal :=
  let st' := { st with calls := st.calls + 1 }
  if st.online then
    if st.events.any (fun ev => ev.id = eventId) then
      (Except.ok (),
       { st' with events := st'.events.filter fun ev => ev.id ≠ eventId })
    else
      (Except.error "Not Found", st')
  else
    (Except.error "service unavailable", st')

/-- Modelled from the spec: JS Date parsing of a date-time string to an
instant, followed by toISOString canonicalisation.  The instant is the
digit string of the input read as a number, which is strictly monotone in
the date-time for the fixed-width ISO format the system exchanges; a string
with no digits is an Invalid Date (toISOString would throw). -/
def jsParseDate (s : String) : Option Nat :=
  let ds := s.toList.filter Char.isDigit
  if ds.isEmpty then none
  else some (ds.foldl (fun n c => n * 10 + (c.toNat - 48)) 0)

/-- The error message thrown by every adapter function when the
process-wide credential slot is still empty. -/
def notAuthenticatedMsg : String := "Not authenticated. Visit /auth"

/-- The shape of one event returned by the listEvents adapter. -/
structure EventOut where
  id : String
  summary : Option String
  start : Nat
  deriving Repr, DecidableEq

/-- Embedded from src/unnamed/part_001, listEvents: require a credential,
issue the calendar list call with timeMin the current instant, the given
maxResults, singleEvents and orderBy startTime, and project each item to
id, summary and start. -/
def listEvents (tokens : Option Credential) (maxResults : Nat) (now : Nat)
    (st : GCal) : Except String (List EventOut) × GCal :=
  match tokens with
  | none => (Except.error notAuthenticatedMsg, st)
  | some _ =>
    match gcalEventsList now maxResults st with
    | (Except.ok items, st') =>
      (Except.ok (items.map fun ev => ⟨ev.id, ev.summary, ev.start⟩), st')
    | (Except.error e, st') => (Except.error e, st')

/-- The listEvents adapter as called with its maxResults parameter omitted:
the TypeScript default parameter is 5. -/
def listEventsDefault (tokens : Option Credential) (now : Nat) (st : GCal) :
    Except String (List EventOut) × GCal :=
  listEvents tokens 5 now st

/-- The shape returned by the createEvent and updateEvent adapters. -/
structure EventResult where
  success : Bool
  summary : Option String
  link : Option String
  deriving Repr, DecidableEq

/-- Embedded from src/unnamed/part_001, createEvent: require a credential,
convert the start and end date-time strings to canonical instants (an
unparseable string throws before any calendar call), and insert. -/
def createEvent (tokens : Option Credential) (summary startStr endStr : String)
    (st : GCal) : Except String EventResult × GCal :=
  match tokens with
  | none => (Except.error notAuthenticatedMsg, st)
  | some _ =>
    match jsParseDate startStr, jsParseDate endStr with
    | some s, some e =>
      match gcalInsert (some summary) s e st with
      | (Except.ok ev, st') =>
        (Except.ok ⟨true, ev.summary, some (gcalLink ev.id)⟩, st')
      | (Except.error msg, st') => (Except.error msg, st')
    | _, _ => (Except.error "Invalid time value", st)

/-- Conversion of an optional date-time string for the patch body, as the
source writes it: a missing or empty (falsy) string yields no field, a
present parseable string yields the canonical instant, and an unparseable
one throws. -/
def optTimestamp (s : Option String) : Except String (Option Nat) :=
  match s with
  | none => Except.ok none
  | some str =>
    if str = "" then Except.ok none
    else
      match jsParseDate str with
      | some t => Except.ok (some t)
      | none => Except.error "Invalid time value"

/-- Embedded from src/unnamed/part_001, updateEvent: require a credential,
convert the supplied optional date-time strings, and patch; an omitted
field is absent from the patch body. -/
def updateEvent (tokens : Option Credential) (eventId : String)
    (summary startStr endStr : Option String) (st : GCal) :
    Except String EventResult × GCal :=
  match tokens with
  | none => (Except.error notAuthenticatedMsg, st)
  | some _ =>
    match optTimestamp startStr, optTimestamp endStr with
    | Except.ok s, Except.ok e =>
      match gcalPatch eventId summary s e st with
      | (Except.ok ev, st') =>
        (Except.ok ⟨true, ev.summary, some (gcalLink eventId)⟩, st')
      | (Except.error msg, st') => (Except.error msg, st')
    | Except.error msg, _ => (Except.error msg, st)
    | _, Except.error msg => (Except.error msg, st)

/-- The shape returned by the deleteEvent adapter. -/
structure DeleteResult where
  success : Bool
  message : String
  deriving Repr, DecidableEq

/-- Embedded from src/unnamed/part_001, deleteEvent: require a credential,
issue the calendar delete call, and report a fixed confirmation. -/
def deleteEvent (tokens : Option Credential) (eventId : String) (st : GCal) :
    Except String DeleteResult × GCal :=
  match tokens with
  | none => (Except.error notAuthenticatedMsg, st)
  | some _ =>
    match gcalDelete eventId st with
    | (Except.ok _, st') =>
      (Except.ok ⟨true, "Event deleted successfully"⟩, st')
    | (Except.error e, st') => (Except.error e, st')

/-- A chat reply: either the event list or a text message. -/
inductive ChatReply where
  | events (es : List EventOut)
  | text (s : String)
  deriving Repr, DecidableEq

/-- The JSON body of an HTTP response. -/
inductive ApiBody where
  | events (es : List EventOut)
  | eventResult (r : EventResult)
  | deleteResult (r : DeleteResult)
  | chat (r : ChatReply)
  | errorMsg (msg : String)
  deriving Repr, DecidableEq

/-- An HTTP response: status code and JSON body. -/
structure ApiResponse where
  status : Nat
  body : ApiBody
  deriving Repr, DecidableEq

/-- JS truthiness coercion of an optional numeric field with a default, as
in the source expression maxResults or-else 5: a missing field or the falsy
value 0 yields the default. -/
def jsOrDefault (m : Option Nat) (d : Nat) : Nat :=
  match m with
  | some n => if n = 0 then d else n
  | none => d

/-- JS truthiness of an optional string field: missing and empty are falsy. -/
def jsFalsyStr (s : Option String) : Bool :=
  match s with
  | none => true
  | some str => str = ""

/-- Embedded from src/unnamed/part_001, the /api/listEvents endpoint:
coerce the optional maxResults body field, call the adapter, and map any
failure to a 500 with a fixed body. -/
def apiListEvents (tokens : Option Credential) (now : Nat)
    (maxResults : Option Nat) (st : GCal) : ApiResponse × GCal :=
  match listEvents tokens (jsOrDefault maxResults 5) now st with
  | (Except.ok es, st') => (⟨200, ApiBody.events es⟩, st')
  | (Except.error _, st') => (⟨500, ApiBody.errorMsg "Failed to fetch events"⟩, st')

/-- Embedded from src/unnamed/part_001, the /api/createEvent endpoint. -/
def apiCreateEvent (tokens : Option Credential) (summary startStr endStr : String)
    (st : GCal) : ApiResponse × GCal :=
  match createEvent tokens summary startStr endStr st with
  | (Except.ok ev, st') => (⟨200, ApiBody.eventResult ev⟩, st')
  | (Except.error _, st') => (⟨500, ApiBody.errorMsg "Failed to create event"⟩, st')

/-- Embedded from src/unnamed/part_001, the /api/updateEvent endpoint. -/
def apiUpdateEvent (tokens : Option Credential) (eventId : String)
    (summary startStr endStr : Option String) (st : GCal) : ApiResponse × GCal :=
  match updateEvent tokens eventId summary startStr endStr st with
  | (Except.ok ev, st') => (⟨200, ApiBody.eventResult ev⟩, st')
  | (Except.error _, st') => (⟨500, ApiBody.errorMsg "Failed to update event"⟩, st')

/-- Embedded from src/unnamed/part_001, the /api/deleteEvent endpoint: a
falsy eventId body field is rejected with a 400 before any adapter call;
any adapter failure maps to a 500 with a fixed body. -/
def apiDeleteEvent (tokens : Option Credential) (eventId : Option String)
    (st : GCal) : ApiResponse × GCal :=
  if jsFalsyStr eventId then
    (⟨400, ApiBody.errorMsg "Missing eventId"⟩, st)
  else
    match deleteEvent tokens (eventId.getD "") st with
    | (Except.ok r, st') => (⟨200, ApiBody.deleteResult r⟩, st')
    | (Except.error _, st') => (⟨500, ApiBody.errorMsg "Failed to delete event"⟩, st')

/-- The external language-model calls made by the chat endpoint, as
functions of the user message: the classification call and the generic
conversational fallback call.  Each returns the optional content of the
first choice, or an error when the external call is rejected. -/
structure ChatEnv where
  classify : String → Except String (Option String)
  fallback : String → Except String (Option String)

/-- Modelled from the spec: the JS trim call on the classification
response, removing whitespace from both ends of the string. -/
def jsTrim (s : String) : String :=
  ⟨((s.toList.dropWhile Char.isWhitespace).reverse.dropWhile
      Char.isWhitespace).reverse⟩

/-- The intent label extracted from the classification response, as the
source writes it: the content of the first choice, trimmed. -/
def chatIntent (env : ChatEnv) (message : String) :
    Except String (Option String) :=
  (env.classify message).map (fun c => c.map jsTrim)

/-- Embedded from src/unnamed/part_001, the /api/chat endpoint: classify
the message, dispatch on the trimmed label by exact string match
(list_events calls the adapter with default arguments; create_event calls
the adapter with the hardcoded placeholder title and times; update_event
and delete_event answer a static instruction), fall through to the generic
conversational call for any other label, and map any thrown failure to a
500 with a fixed body. -/
def apiChat (env : ChatEnv) (tokens : Option Credential) (now : Nat)
    (message : String) (st : GCal) : ApiResponse × GCal :=
  match chatIntent env message with
  | Except.error _ => (⟨500, ApiBody.errorMsg "Chat failed"⟩, st)
  | Except.ok intent =>
    if intent = some "list_events" then
      match listEventsDefault tokens now st with
      | (Except.ok es, st') => (⟨200, ApiBody.chat (ChatReply.events es)⟩, st')
      | (Except.error _, st') => (⟨500, ApiBody.errorMsg "Chat failed"⟩, st')
    else if intent = some "create_event" then
      match createEvent tokens "New Event" "2025-09-25T10:00:00"
          "2025-09-25T11:00:00" st with
      | (Except.ok ev, st') =>
        (⟨200, ApiBody.chat (ChatReply.text
            ("✅ Event created: " ++ ev.link.getD "undefined"))⟩, st')
      | (Except.error _, st') => (⟨500, ApiBody.errorMsg "Chat failed"⟩, st')
    else if intent = some "update_event" then
      (⟨200, ApiBody.chat
          (ChatReply.text "Use the [Update] button on an event to modify it.")⟩, st)
    else if intent = some "delete_event" then
      (⟨200, ApiBody.chat
          (ChatReply.text "Use the [Delete] button on an event to remove it.")⟩, st)
    else
      match env.fallback message with
      | Except.error _ => (⟨500, ApiBody.errorMsg "Chat failed"⟩, st)
      | Except.ok reply =>
        (⟨200, ApiBody.chat (ChatReply.text
            (match reply with
             | some r => if r = "" then "🤔 No response" else r
             | none => "🤔 No response"))⟩, st)

/-- One tool registration on the MCP server: its name, title, description,
and whether its input schema declares maxResults as optional. -/
structure ToolRegistration where
  name : String
  title : String
  description : String
  maxResultsOptional : Bool
  deriving Repr, DecidableEq

/-- Embedded from src/src/index.ts: the complete list of tools registered
on the MCP server.  Exactly one registerTool call appears in the source. -/
def mcpTools : List ToolRegistration :=
  [⟨"listEvents", "List Calendar Events",
    "List upcoming Google Calendar events", true⟩]

/-- The result of one MCP tool invocation: the text content and the
isError flag. -/
structure McpToolResult where
  text : String
  isError : Bool
  deriving Repr, DecidableEq

/-- The per-event line of the MCP tool output, summary dash start. -/
def mcpEventLine (o : Occurrence) : String :=
  (o.summary.getD "undefined") ++ " - " ++ toString o.start

/-- Embedded from src/src/index.ts, the listEvents tool handler: without a
credential answer an isError result telling the caller to visit /auth;
otherwise issue the calendar list call directly (no HTTP round trip) with
the coerced maxResults, and render the occurrences one per line, or a
fixed text when none match. -/
def mcpListEventsHandler (input : Option Nat) (tokens : Option Credential)
    (now : Nat) (st : GCal) : McpToolResult × GCal :=
  match tokens with
  | none =>
    (⟨"Not authenticated. Visit http://localhost:4153/auth", true⟩, st)
  | some _ =>
    match gcalEventsList now (jsOrDefault input 5) st with
    | (Except.ok items, st') =>
      (⟨if items.length > 0 then
          String.intercalate "\x0a" (items.map mcpEventLine)
        else "No upcoming events found.", false⟩, st')
    | (Except.error e, st') =>
      (⟨"Error fetching events: " ++ e, true⟩, st')

/-! Helper lemmas shared by several claim proofs. -/

/-- Every occurrence of the singleEvents expansion comes from a stored
event, carrying its identifier and summary and one of its start instants. -/
theorem mem_expandSingle {evs : List GEvent} {o : Occurrence}
    (h : o ∈ expandSingle evs) :
    ∃ ev ∈ evs, o.id = ev.id ∧ o.summary = ev.summary ∧ o.start ∈ ev.starts := by
  simp only [expandSingle, List.mem_flatMap, List.mem_map] at h
  obtain ⟨ev, hev, t, ht, rfl⟩ := h
  exact ⟨ev, hev, rfl, rfl, ht⟩

/-- The value of the listEvents adapter when a credential is present and
the calendar service is reachable. -/
theorem listEvents_online (c : Credential) (maxResults now : Nat) (st : GCal)
    (hon : st.online = true) :
    listEvents (some c) maxResults now st =
      (Except.ok (((((expandSingle st.events).filter
            (fun o => now ≤ o.start)).insertionSort occLE).take maxResults).map
          fun o => ⟨o.id, o.summary, o.start⟩),
       { st with calls := st.calls + 1 }) := by
  simp [listEvents, gcalEventsList, hon]

/-- Inversion of a successful listEvents call: the service was reachable,
the result is the projected capped sorted filtered expansion, and the
service state only gained one call. -/
theorem listEvents_ok_inv {c : Credential} {mr now : Nat} {st : GCal}
    {es : List EventOut} {st' : GCal}
    (h : listEvents (some c) mr now st = (Except.ok es, st')) :
    st.online = true ∧
    es = ((((expandSingle st.events).filter
          (fun o => now ≤ o.start)).insertionSort occLE).take mr).map
        (fun o => ⟨o.id, o.summary, o.start⟩) ∧
    st' = { st with calls := st.calls + 1 } := by
  by_cases hon : st.online = true
  · rw [listEvents_online c mr now st hon] at h
    obtain ⟨h₁, h₂⟩ := Prod.mk.injEq .. ▸ h
    exact ⟨hon, (Except.ok.injEq .. ▸ h₁).symm, h₂.symm⟩
  · rw [Bool.not_eq_true] at hon
    simp [listEvents, gcalEventsList, hon] at h

/-- Every event returned by a successful listEvents call corresponds to a
stored event and starts no earlier than the time floor passed as timeMin. -/
theorem listEvents_ok_mem {c : Credential} {mr now : Nat} {st : GCal}
    {es : List EventOut} {st' : GCal}
    (h : listEvents (some c) mr now st = (Except.ok es, st'))
    {e : EventOut} (he : e ∈ es) :
    now ≤ e.start ∧
    ∃ ev ∈ st.events, e.id = ev.id ∧ e.summary = ev.summary ∧ e.start ∈ ev.starts := by
  obtain ⟨-, hes, -⟩ := listEvents_ok_inv h
  subst hes
  obtain ⟨o, ho, rfl⟩ := List.mem_map.mp he
  have ho' : o ∈ ((expandSingle st.events).filter
      (fun o => now ≤ o.start)).insertionSort occLE :=
    List.take_subset mr _ ho
  have ho'' := (List.mem_insertionSort occLE).mp ho'
  obtain ⟨hmem, hfloor⟩ := List.mem_filter.mp ho''
  refine ⟨by simpa using hfloor, ?_⟩
  obtain ⟨ev, hev, h1, h2, h3⟩ := mem_expandSingle hmem
  exact ⟨ev, hev, h1, h2, h3⟩

/-- Inversion of a successful deleteEvent call: the confirmation is the
fixed message and the service removed every event with that identifier. -/
theorem deleteEvent_ok_inv {tokens : Option Credential} {id : String}
    {st : GCal} {r : DeleteResult} {st' : GCal}
    (h : deleteEvent tokens id st = (Except.ok r, st')) :
    r = ⟨true, "Event deleted successfully"⟩ ∧
    st' = { st with
            calls := st.calls + 1
            events := st.events.filter fun ev => ev.id ≠ id } := by
  cases tokens with
  | none => simp [deleteEvent] at h
  | some c =>
    simp only [deleteEvent] at h
    by_cases hon : st.online = true
    · by_cases hany : st.events.any (fun ev => ev.id = id) = true
      · simp [gcalDelete, hon, hany] at h
        obtain ⟨h1, h2⟩ := h
        subst h2
        exact ⟨h1.symm, by simp [hon]⟩
      · rw [Bool.not_eq_true] at hany
        simp [gcalDelete, hon, hany] at h
    · rw [Bool.not_eq_true] at hon
      simp [gcalDelete, hon] at h

/-- The value of the createEvent adapter when a credential is present, both
date-time strings parse, and the calendar service is reachable. -/
theorem createEvent_online (c : Credential) (summary a b : String) (st : GCal)
    (hon : st.online = true) {s e : Nat}
    (ha : jsParseDate a = some s) (hb : jsParseDate b = some e) :
    createEvent (some c) summary a b st =
      (Except.ok ⟨true, some summary, some (gcalLink (toString st.nextId))⟩,
       { st with
         calls := st.calls + 1
         events := st.events ++ [⟨toString st.nextId, some summary, [s], some e⟩]
         nextId := st.nextId + 1 }) := by
  simp [createEvent, ha, hb, gcalInsert, hon]

/-!
Claim theorems.
-/

/-- C1: every calendar adapter operation (listEvents, createEvent,
updateEvent, deleteEvent) invoked while the process-wide credential slot is
still absent fails immediately with the unauthenticated error instructing
the caller to begin the OAuth flow, and makes no calendar call: the
returned service state (call counter included) is exactly the input state. -/
theorem adapter_unauthenticated (maxResults now : Nat)
    (id summary startStr endStr : String) (s e t : Option String) (st : GCal) :
    listEvents none maxResults now st = (Except.error notAuthenticatedMsg, st) ∧
    createEvent none summary startStr endStr st = (Except.error notAuthenticatedMsg, st) ∧
    updateEvent none id t s e st = (Except.error notAuthenticatedMsg, st) ∧
    deleteEvent none id st = (Except.error notAuthenticatedMsg, st) :=
  ⟨rfl, rfl, rfl, rfl⟩

/-- C7: a chat request classified as update_event or delete_event is
answered with the fixed instruction to use the UI button, and the chat path
performs no update or delete on the calendar: the service state (its event
list and call counter) is returned unchanged. -/
theorem chat_update_delete_static (env : ChatEnv) (tokens : Option Credential)
    (now : Nat) (message : String) (st : GCal) :
    (chatIntent env message = Except.ok (some "update_event") →
      apiChat env tokens now message st =
        (⟨200, ApiBody.chat
            (ChatReply.text "Use the [Update] button on an event to modify it.")⟩, st)) ∧
    (chatIntent env message = Except.ok (some "delete_event") →
      apiChat env tokens now message st =
        (⟨200, ApiBody.chat
            (ChatReply.text "Use the [Delete] button on an event to remove it.")⟩, st)) := by
  constructor <;> intro h <;> simp [apiChat, h]

/-- C7 witness: a concrete classifier answering update_event yields the
fixed instruction and leaves a concrete calendar state untouched. -/
theorem chat_update_delete_static_witness :
    apiChat ⟨fun _ => Except.ok (some " update_event "), fun _ => Except.ok none⟩
        (some ⟨"tok"⟩) 0 "please update it" ⟨true, [], 0, 0⟩ =
      (⟨200, ApiBody.chat
          (ChatReply.text "Use the [Update] button on an event to modify it.")⟩,
       ⟨true, [], 0, 0⟩) :=
  (chat_update_delete_static
    ⟨fun _ => Except.ok (some " update_event "), fun _ => Except.ok none⟩
    (some ⟨"tok"⟩) 0 "please update it" ⟨true, [], 0, 0⟩).1 (by rfl)

/-- C2: when the trimmed classifier response equals list_events the chat
reply is exactly the successful result of the listEvents adapter called
with its default arguments; for any classifier label outside the fixed
vocabulary the reply comes from the generic conversational fallback call
and the response is a 200 chat reply, never an error. -/
theorem chat_dispatch (env : ChatEnv) (tokens : Option Credential) (now : Nat)
    (message : String) (st : GCal) :
    (∀ es st', chatIntent env message = Except.ok (some "list_events") →
      listEventsDefault tokens now st = (Except.ok es, st') →
      apiChat env tokens now message st =
        (⟨200, ApiBody.chat (ChatReply.events es)⟩, st')) ∧
    (∀ intent r, chatIntent env message = Except.ok intent →
      intent ∉ [some "list_events", some "create_event",
                some "update_event", some "delete_event"] →
      env.fallback message = Except.ok r →
      apiChat env tokens now message st =
        (⟨200, ApiBody.chat (ChatReply.text
            (match r with
             | some s => if s = "" then "🤔 No response" else s
             | none => "🤔 No response"))⟩, st)) := by
  constructor
  · intro es st' hc hl
    simp [apiChat, hc, listEventsDefault] at hl ⊢
    rw [hl]
  · intro intent r hc hmem hf
    simp only [List.mem_cons, List.mem_singleton, not_or] at hmem
    obtain ⟨h1, h2, h3, h4⟩ := hmem
    simp [apiChat, hc, h1, h2, h3, h4, hf]

/-- C2 witness: a classifier answering list_events (with surrounding
whitespace) yields the adapter result on an empty calendar, and a
classifier answering the out-of-vocabulary label chat yields the fallback
text as a 200 reply. -/
theorem chat_dispatch_witness :
    apiChat ⟨fun _ => Except.ok (some " list_events "), fun _ => Except.ok none⟩
        (some ⟨"tok"⟩) 0 "what is on my calendar" ⟨true, [], 0, 0⟩ =
      (⟨200, ApiBody.chat (ChatReply.events [])⟩, ⟨true, [], 0, 1⟩) ∧
    apiChat ⟨fun _ => Except.ok (some "chat"), fun _ => Except.ok (some "sure")⟩
        (some ⟨"tok"⟩) 0 "hello" ⟨true, [], 0, 0⟩ =
      (⟨200, ApiBody.chat (ChatReply.text "sure")⟩, ⟨true, [], 0, 0⟩) :=
  ⟨(chat_dispatch ⟨fun _ => Except.ok (some " list_events "), fun _ => Except.ok none⟩
      (some ⟨"tok"⟩) 0 "what is on my calendar" ⟨true, [], 0, 0⟩).1
      [] ⟨true, [], 0, 1⟩ (by rfl) (by rfl),
   (chat_dispatch ⟨fun _ => Except.ok (some "chat"), fun _ => Except.ok (some "sure")⟩
      (some ⟨"tok"⟩) 0 "hello" ⟨true, [], 0, 0⟩).2
      (some "chat") (some "sure") (by rfl) (by decide) (by rfl)⟩

/-- C6: a chat request classified as create_event always creates the same
hardcoded placeholder event (title New Event, the fixed start and end
instants) regardless of the user message: the response and new state are
fully determined by the prior state, and two different messages that both
classify as create_event produce identical outcomes. -/
theorem chat_create_hardcoded (env : ChatEnv) (c : Credential) (now : Nat)
    (message message' : String) (st : GCal) (hon : st.online = true)
    (h : chatIntent env message = Except.ok (some "create_event"))
    (h' : chatIntent env message' = Except.ok (some "create_event")) :
    apiChat env (some c) now message st =
      ((⟨200, ApiBody.chat (ChatReply.text
          ("✅ Event created: " ++ gcalLink (toString st.nextId)))⟩ : ApiResponse),
       { st with
         calls := st.calls + 1
         events := st.events ++ [⟨toString st.nextId, some "New Event",
            [20250925100000], some 20250925110000⟩]
         nextId := st.nextId + 1 }) ∧
    apiChat env (some c) now message st = apiChat env (some c) now message' st := by
  have hc := createEvent_online c "New Event" "2025-09-25T10:00:00"
      "2025-09-25T11:00:00" st hon (s := 20250925100000) (e := 20250925110000)
      (by decide) (by decide)
  constructor
  · simp [apiChat, h, hc]
  · simp [apiChat, h, h', hc]

/-- C6 witness: a concrete classifier answering create_event on two
different messages produces the same created placeholder event. -/
theorem chat_create_hardcoded_witness :
    apiChat ⟨fun _ => Except.ok (some "create_event"), fun _ => Except.ok none⟩
        (some ⟨"tok"⟩) 0 "book dinner with Sam tomorrow" ⟨true, [], 0, 0⟩ =
      ((⟨200, ApiBody.chat (ChatReply.text
          ("✅ Event created: " ++ gcalLink "0"))⟩ : ApiResponse),
       ⟨true, [⟨"0", some "New Event", [20250925100000], some 20250925110000⟩], 1, 1⟩) ∧
    apiChat ⟨fun _ => Except.ok (some "create_event"), fun _ => Except.ok none⟩
        (some ⟨"tok"⟩) 0 "book dinner with Sam tomorrow" ⟨true, [], 0, 0⟩ =
      apiChat ⟨fun _ => Except.ok (some "create_event"), fun _ => Except.ok none⟩
        (some ⟨"tok"⟩) 0 "schedule a standup" ⟨true, [], 0, 0⟩ :=
  chat_create_hardcoded
    ⟨fun _ => Except.ok (some "create_event"), fun _ => Except.ok none⟩
    ⟨"tok"⟩ 0 "book dinner with Sam tomorrow" "schedule a standup"
    ⟨true, [], 0, 0⟩ rfl (by rfl) (by rfl)

/-- C3: a listEvents call with a present credential against a reachable
calendar service returns a list of at most maxResults events, every
returned event starts at or after the call time, the list is ordered
ascending by start time, every returned event is a single occurrence of a
stored (possibly recurring) event, and the adapter called with maxResults
omitted behaves as maxResults 5. -/
theorem listEvents_spec (c : Credential) (maxResults now : Nat) (st : GCal)
    (hon : st.online = true) :
    (∃ es st', listEvents (some c) maxResults now st = (Except.ok es, st') ∧
      es.length ≤ maxResults ∧
      (∀ e ∈ es, now ≤ e.start) ∧
      es.Pairwise (fun a b => a.start ≤ b.start) ∧
      ∀ e ∈ es, ∃ ev ∈ st.events,
        e.id = ev.id ∧ e.summary = ev.summary ∧ e.start ∈ ev.starts) ∧
    listEventsDefault (some c) now st = listEvents (some c) 5 now st := by
  refine ⟨⟨_, _, listEvents_online c maxResults now st hon, ?_, ?_, ?_, ?_⟩, rfl⟩
  · rw [List.length_map]
    exact List.length_take_le maxResults _
  · intro e he
    exact (listEvents_ok_mem (listEvents_online c maxResults now st hon) he).1
  · have hs : List.Pairwise occLE
        (((expandSingle st.events).filter
          (fun o => now ≤ o.start)).insertionSort occLE) :=
      List.sorted_insertionSort occLE _
    have ht : List.Pairwise occLE
        ((((expandSingle st.events).filter
          (fun o => now ≤ o.start)).insertionSort occLE).take maxResults) :=
      List.Pairwise.sublist (List.take_sublist maxResults _) hs
    exact ht.map _ (fun a b hab => hab)
  · intro e he
    exact (listEvents_ok_mem (listEvents_online c maxResults now st hon) he).2

/-- C3 witness: on a calendar holding one past event, one future recurring
event with two occurrences (stored out of order) and one further future
event, a call with maxResults 2 returns the two earliest future
occurrences in ascending order. -/
theorem listEvents_spec_witness :
    (⟨true, [⟨"a", some "Past and future", [5, 300], none⟩,
             ⟨"b", some "Soon", [200], none⟩], 7, 0⟩ : GCal).online = true ∧
    listEvents (some ⟨"tok"⟩) 2 100
        ⟨true, [⟨"a", some "Past and future", [5, 300], none⟩,
                ⟨"b", some "Soon", [200], none⟩], 7, 0⟩ =
      (Except.ok [⟨"b", some "Soon", 200⟩, ⟨"a", some "Past and future", 300⟩],
       ⟨true, [⟨"a", some "Past and future", [5, 300], none⟩,
               ⟨"b", some "Soon", [200], none⟩], 7, 1⟩) ∧
    (∃ es st', listEvents (some ⟨"tok"⟩) 2 100
        ⟨true, [⟨"a", some "Past and future", [5, 300], none⟩,
                ⟨"b", some "Soon", [200], none⟩], 7, 0⟩ = (Except.ok es, st') ∧
      es.length ≤ 2 ∧
      (∀ e ∈ es, 100 ≤ e.start) ∧
      es.Pairwise (fun a b => a.start ≤ b.start) ∧
      ∀ e ∈ es, ∃ ev ∈ [⟨"a", some "Past and future", [5, 300], none⟩,
                        (⟨"b", some "Soon", [200], none⟩ : GEvent)],
        e.id = ev.id ∧ e.summary = ev.summary ∧ e.start ∈ ev.starts) :=
  ⟨rfl, by rfl,
   (listEvents_spec ⟨"tok"⟩ 2 100
      ⟨true, [⟨"a", some "Past and future", [5, 300], none⟩,
              ⟨"b", some "Soon", [200], none⟩], 7, 0⟩ rfl).1⟩

/-- C4: at every HTTP endpoint an adapter failure is mapped to a 500
response whose body is the fixed generic error text of that endpoint,
carrying no structured error code and independent of the thrown error; a
deleteEvent request with the eventId field missing is rejected with a 400
before any adapter call (the calendar state is returned untouched). -/
theorem api_error_mapping (tokens : Option Credential) (now : Nat)
    (m : Option Nat) (summary a b eventId : String)
    (us ut uu : Option String) (env : ChatEnv) (message : String) (st : GCal) :
    (∀ e st', listEvents tokens (jsOrDefault m 5) now st = (Except.error e, st') →
      apiListEvents tokens now m st =
        (⟨500, ApiBody.errorMsg "Failed to fetch events"⟩, st')) ∧
    (∀ e st', createEvent tokens summary a b st = (Except.error e, st') →
      apiCreateEvent tokens summary a b st =
        (⟨500, ApiBody.errorMsg "Failed to create event"⟩, st')) ∧
    (∀ e st', updateEvent tokens eventId us ut uu st = (Except.error e, st') →
      apiUpdateEvent tokens eventId us ut uu st =
        (⟨500, ApiBody.errorMsg "Failed to update event"⟩, st')) ∧
    (∀ e st', eventId ≠ "" → deleteEvent tokens eventId st = (Except.error e, st') →
      apiDeleteEvent tokens (some eventId) st =
        (⟨500, ApiBody.errorMsg "Failed to delete event"⟩, st')) ∧
    apiDeleteEvent tokens none st = (⟨400, ApiBody.errorMsg "Missing eventId"⟩, st) ∧
    (∀ e st', chatIntent env message = Except.ok (some "list_events") →
      listEventsDefault tokens now st = (Except.error e, st') →
      apiChat env tokens now message st =
        (⟨500, ApiBody.errorMsg "Chat failed"⟩, st')) := by
  refine ⟨?_, ?_, ?_, ?_, rfl, ?_⟩
  · intro e st' h
    simp [apiListEvents, h]
  · intro e st' h
    simp [apiCreateEvent, h]
  · intro e st' h
    simp [apiUpdateEvent, h]
  · intro e st' hne h
    simp [apiDeleteEvent, jsFalsyStr, hne, h]
  · intro e st' hc h
    simp [apiChat, hc, listEventsDefault] at h ⊢
    rw [h]

/-- C4 witness: with an empty credential slot every endpoint surfaces the
adapter failure as its fixed 500 body, and a deleteEvent request without an
eventId is answered 400 with the state untouched. -/
theorem api_error_mapping_witness :
    apiListEvents none 0 (some 2) ⟨true, [], 0, 0⟩ =
      (⟨500, ApiBody.errorMsg "Failed to fetch events"⟩, ⟨true, [], 0, 0⟩) ∧
    apiCreateEvent none "Meeting" "2025-01-01T10:00:00" "2025-01-01T11:00:00"
        ⟨true, [], 0, 0⟩ =
      (⟨500, ApiBody.errorMsg "Failed to create event"⟩, ⟨true, [], 0, 0⟩) ∧
    apiUpdateEvent none "x" none none none ⟨true, [], 0, 0⟩ =
      (⟨500, ApiBody.errorMsg "Failed to update event"⟩, ⟨true, [], 0, 0⟩) ∧
    apiDeleteEvent none (some "x") ⟨true, [], 0, 0⟩ =
      (⟨500, ApiBody.errorMsg "Failed to delete event"⟩, ⟨true, [], 0, 0⟩) ∧
    apiDeleteEvent none none ⟨true, [], 0, 0⟩ =
      (⟨400, ApiBody.errorMsg "Missing eventId"⟩, ⟨true, [], 0, 0⟩) ∧
    apiChat ⟨fun _ => Except.ok (some "list_events"), fun _ => Except.ok none⟩
        none 0 "show my events" ⟨true, [], 0, 0⟩ =
      (⟨500, ApiBody.errorMsg "Chat failed"⟩, ⟨true, [], 0, 0⟩) := by
  obtain ⟨h1, h2, h3, h4, h5, h6⟩ := api_error_mapping none 0 (some 2) "Meeting"
    "2025-01-01T10:00:00" "2025-01-01T11:00:00" "x" none none none
    ⟨fun _ => Except.ok (some "list_events"), fun _ => Except.ok none⟩
    "show my events" ⟨true, [], 0, 0⟩
  exact ⟨h1 notAuthenticatedMsg _ rfl, h2 notAuthenticatedMsg _ rfl,
    h3 notAuthenticatedMsg _ rfl, h4 notAuthenticatedMsg _ (by decide) rfl,
    h5, h6 notAuthenticatedMsg _ (by rfl) rfl⟩

/-- C5: every successful deleteEvent call reports the same fixed
confirmation; deleting the identifier assigned by a previous createEvent
removes it from all subsequent listEvents results; and deleteEvent on an
identifier unknown to the calendar service surfaces the external-service
failure thrown by the calendar call. -/
theorem delete_spec :
    (∀ tokens id st r st', deleteEvent tokens id st = (Except.ok r, st') →
      r = ⟨true, "Event deleted successfully"⟩) ∧
    (∀ c summary a b st r st₁ r₂ st₂ mr now es st₃,
      createEvent (some c) summary a b st = (Except.ok r, st₁) →
      deleteEvent (some c) (toString st.nextId) st₁ = (Except.ok r₂, st₂) →
      listEvents (some c) mr now st₂ = (Except.ok es, st₃) →
      ∀ e ∈ es, e.id ≠ toString st.nextId) ∧
    (∀ c id st, st.online = true → (∀ ev ∈ st.events, ev.id ≠ id) →
      deleteEvent (some c) id st =
        (Except.error "Not Found", { st with calls := st.calls + 1 })) := by
  refine ⟨?_, ?_, ?_⟩
  · intro tokens id st r st' h
    exact (deleteEvent_ok_inv h).1
  · intro c summary a b st r st₁ r₂ st₂ mr now es st₃ hc hd hl e he
    obtain ⟨-, hst₂⟩ := deleteEvent_ok_inv hd
    obtain ⟨-, ev, hev, hid, -, -⟩ := listEvents_ok_mem hl he
    rw [hst₂] at hev
    have := List.of_mem_filter hev
    rw [hid]
    simpa using this
  · intro c id st hon hno
    have hany : st.events.any (fun ev => ev.id = id) = false := by
      simp only [List.any_eq_false, decide_eq_true_eq]
      exact hno
    simp [deleteEvent, gcalDelete, hon, hany]

/-- C5 witness: a create of one event on an empty calendar assigns
identifier 0; deleting it succeeds with the fixed confirmation and a
subsequent list is empty; deleting an unknown identifier on an empty
calendar fails with the Not Found rejection of the calendar service. -/
theorem delete_spec_witness :
    (⟨true, "Event deleted successfully"⟩ : DeleteResult) =
      ⟨true, "Event deleted successfully"⟩ ∧
    (∀ e ∈ ([] : List EventOut),
      e.id ≠ toString (⟨true, [], 0, 0⟩ : GCal).nextId) ∧
    deleteEvent (some ⟨"tok"⟩) "zzz" ⟨true, [], 0, 0⟩ =
      (Except.error "Not Found", ⟨true, [], 0, 1⟩) :=
  ⟨delete_spec.1 (some ⟨"tok"⟩) "0"
      ⟨true, [⟨"0", some "Meeting", [20250101100000], some 20250101110000⟩], 1, 1⟩
      ⟨true, "Event deleted successfully"⟩ ⟨true, [], 1, 2⟩ (by rfl),
   delete_spec.2.1 ⟨"tok"⟩ "Meeting" "2025-01-01T10:00:00" "2025-01-01T11:00:00"
      ⟨true, [], 0, 0⟩
      ⟨true, some "Meeting", some (gcalLink "0")⟩
      ⟨true, [⟨"0", some "Meeting", [20250101100000], some 20250101110000⟩], 1, 1⟩
      ⟨true, "Event deleted successfully"⟩ ⟨true, [], 1, 2⟩
      5 0 [] ⟨true, [], 1, 3⟩ (by rfl) (by rfl) (by rfl),
   delete_spec.2.2 ⟨"tok"⟩ "zzz" ⟨true, [], 0, 0⟩ rfl (by simp)⟩

/-- C8: an updateEvent call patches the stored event so that every omitted
optional field keeps its previous value, while every supplied date-time
field is converted to its canonical instant and submitted as the new stored
value; the result reports the patched summary. -/
theorem updateEvent_spec (c : Credential) (eventId : String)
    (summary startStr endStr : Option String) (s e : Option Nat)
    (st : GCal) (ev : GEvent) (hon : st.online = true)
    (hs : optTimestamp startStr = Except.ok s)
    (he : optTimestamp endStr = Except.ok e)
    (hfind : st.events.find? (fun x => x.id = eventId) = some ev) :
    updateEvent (some c) eventId summary startStr endStr st =
      (Except.ok ⟨true, (applyPatch summary s e ev).summary, some (gcalLink eventId)⟩,
       { st with
         calls := st.calls + 1
         events := st.events.map fun x =>
           if x.id = eventId then applyPatch summary s e ev else x }) ∧
    (summary = none → (applyPatch summary s e ev).summary = ev.summary) ∧
    (startStr = none → (applyPatch summary s e ev).starts = ev.starts) ∧
    (endStr = none → (applyPatch summary s e ev).endTime = ev.endTime) ∧
    (∀ str t, startStr = some str → jsParseDate str = some t →
      (applyPatch summary s e ev).starts = [t]) ∧
    (∀ str t, endStr = some str → jsParseDate str = some t →
      (applyPatch summary s e ev).endTime = some t) := by
  refine ⟨?_, ?_, ?_, ?_, ?_, ?_⟩
  · simp [updateEvent, hs, he, gcalPatch, hon, hfind]
  · intro h
    subst h
    simp [applyPatch, patchOpt]
  · intro h
    subst h
    simp only [optTimestamp, Except.ok.injEq] at hs
    subst hs
    simp [applyPatch]
  · intro h
    subst h
    simp only [optTimestamp, Except.ok.injEq] at he
    subst he
    simp [applyPatch, patchOpt]
  · intro str t hstr ht
    subst hstr
    by_cases h0 : str = ""
    · subst h0
      have : jsParseDate "" = none := by rfl
      rw [this] at ht
      cases ht
    · simp only [optTimestamp, h0, if_false, ht, Except.ok.injEq] at hs
      subst hs
      simp [applyPatch]
  · intro str t hstr ht
    subst hstr
    by_cases h0 : str = ""
    · subst h0
      have : jsParseDate "" = none := by rfl
      rw [this] at ht
      cases ht
    · simp only [optTimestamp, h0, if_false, ht, Except.ok.injEq] at he
      subst he
      simp [applyPatch, patchOpt]

/-- C8 witness: patching a stored event with only a new start keeps its
summary and end unchanged and stores the canonical instant of the supplied
start string. -/
theorem updateEvent_spec_witness :
    updateEvent (some ⟨"tok"⟩) "e1" none (some "2025-01-02T03:04:05") none
        ⟨true, [⟨"e1", some "Old title", [111], some 222⟩], 4, 0⟩ =
      (Except.ok ⟨true, some "Old title", some (gcalLink "e1")⟩,
       ⟨true, [⟨"e1", some "Old title", [20250102030405], some 222⟩], 4, 1⟩) ∧
    (applyPatch none (some 20250102030405) none
        ⟨"e1", some "Old title", [111], some 222⟩).summary = some "Old title" ∧
    (applyPatch none (some 20250102030405) none
        ⟨"e1", some "Old title", [111], some 222⟩).endTime = some 222 ∧
    (applyPatch none (some 20250102030405) none
        ⟨"e1", some "Old title", [111], some 222⟩).starts = [20250102030405] := by
  obtain ⟨h1, h2, h3, h4, h5, h6⟩ := updateEvent_spec ⟨"tok"⟩ "e1" none
    (some "2025-01-02T03:04:05") none (some 20250102030405) none
    ⟨true, [⟨"e1", some "Old title", [111], some 222⟩], 4, 0⟩
    ⟨"e1", some "Old title", [111], some 222⟩ rfl (by rfl) rfl (by rfl)
  exact ⟨h1, h2 rfl, h4 rfl, h5 "2025-01-02T03:04:05" 20250102030405 rfl (by rfl)⟩

/-- C9: the tool-invocation (MCP) server registers exactly one callable
tool, the listEvents tool with an optional maxResults parameter, and its
handler serves calendar listing directly from the calendar service (no
HTTP endpoint involved): with a credential present it returns the rendered
result of the calendar list call as a non-error tool result. -/
theorem mcp_single_tool :
    mcpTools.length = 1 ∧
    (∀ t ∈ mcpTools, t.name = "listEvents" ∧ t.maxResultsOptional = true) ∧
    (∀ (c : Credential) (input : Option Nat) (now : Nat) (st : GCal) items st₂,
      gcalEventsList now (jsOrDefault input 5) st = (Except.ok items, st₂) →
      mcpListEventsHandler input (some c) now st =
        (⟨if items.length > 0 then
            String.intercalate "\x0a" (items.map mcpEventLine)
          else "No upcoming events found.", false⟩, st₂)) := by
  refine ⟨rfl, by simp [mcpTools], ?_⟩
  intro c input now st items st₂ hg
  simp [mcpListEventsHandler, hg]

/-- C9 witness: on a calendar with one future event the tool handler,
invoked with maxResults omitted, answers the rendered line of that event
as a non-error result. -/
theorem mcp_single_tool_witness :
    mcpTools.length = 1 ∧
    mcpListEventsHandler none (some ⟨"tok"⟩) 10
        ⟨true, [⟨"a", some "Standup", [50], none⟩], 3, 0⟩ =
      (⟨"Standup - 50", false⟩, ⟨true, [⟨"a", some "Standup", [50], none⟩], 3, 1⟩) :=
  ⟨mcp_single_tool.1,
   (mcp_single_tool.2.2 ⟨"tok"⟩ none 10
      ⟨true, [⟨"a", some "Standup", [50], none⟩], 3, 0⟩
      [⟨"a", some "Standup", 50⟩]
      ⟨true, [⟨"a", some "Standup", [50], none⟩], 3, 1⟩ (by rfl)).trans (by decide)⟩

/-- C10 counterexample: a supplied maxResults of 3 is passed through, so
with four matching events the HTTP list endpoint returns only three: the
effective cap is 3, strictly below the default 5, refuting that the
effective cap is always at least the default. -/
theorem maxresults_below_default :
    (apiListEvents (some ⟨"tok"⟩) 0 (some 3)
        ⟨true, [⟨"a", some "A", [1], none⟩, ⟨"b", some "B", [2], none⟩,
                ⟨"c", some "C", [3], none⟩, ⟨"d", some "D", [4], none⟩], 9, 0⟩).1 =
      ⟨200, ApiBody.events [⟨"a", some "A", 1⟩, ⟨"b", some "B", 2⟩,
                            ⟨"c", some "C", 3⟩]⟩ ∧
    jsOrDefault (some 3) 5 = 3 ∧ ¬ 5 ≤ jsOrDefault (some 3) 5 :=
  ⟨by rfl, rfl, by decide⟩

/-- C10 (amended): at both public list interfaces a supplied maxResults of
0 (or a missing one) is coerced to the default 5 before the calendar call,
so a caller cannot request zero events: the effective cap is always
positive (though a supplied positive value below 5 is passed through). -/
theorem maxresults_coercion (tokens : Option Credential) (now : Nat)
    (st : GCal) (m : Option Nat) :
    apiListEvents tokens now (some 0) st = apiListEvents tokens now none st ∧
    mcpListEventsHandler (some 0) tokens now st =
      mcpListEventsHandler none tokens now st ∧
    jsOrDefault (some 0) 5 = 5 ∧ jsOrDefault none 5 = 5 ∧
    0 < jsOrDefault m 5 := by
  refine ⟨rfl, rfl, rfl, rfl, ?_⟩
  cases m with
  | none => decide
  | some n =>
    by_cases h : n = 0
    · subst h
      decide
    · simp only [jsOrDefault, if_neg h]
      exact Nat.pos_of_ne_zero h

end GCalServer
